import Mathlib

/-!
Shallow embedding of the conversation-scoped retrieval-augmented session
orchestrator from `responses-api-server/index.py` and its backend adapter
`responses-api-server/llmproxy.py`.

Modelling conventions:
* Python dicts keyed by conversation id become functions `String → Option _`.
* The two HTTP backends (retrieval and generation) are modelled by explicit
  outcome data (`RetrieveHttp`, `GenHttp`) describing what `requests.post`
  produced for the one call the handler makes; the functions `retrieve` and
  `generate` translate those outcomes exactly as `llmproxy.py` does.
* Machine floats `0.4`, `0.7` are represented as rationals; they are opaque
  policy constants, never computed with.
* Operations that Python would fault on (KeyError / IndexError on a missing
  conversation) are totalised with the no-op / default in the unreachable
  branch; every such spot is marked in a comment.
-/

namespace CS15Tutor

/-- One message in a conversation's history: `{"role": ..., "content": ...}`. -/
structure Turn where
  role : String
  content : String
deriving DecidableEq, Repr

/-- One retrieved group as returned by the retrieval backend:
a `doc_summary` with its matched `chunks`. -/
structure Collection where
  doc_summary : String
  chunks : List String
deriving DecidableEq, Repr

/-- The process-wide mutable state of `index.py`: the `conversations` dict
(line 50) and the `conversation_rag_context` dict (line 53). -/
structure ServerState where
  conversations : String → Option (List Turn)
  conversation_rag_context : String → Option (List Collection)

/-- Update the `conversations` dict at one key. -/
def ServerState.setConv (st : ServerState) (cid : String) (turns : List Turn) : ServerState :=
  { st with conversations := fun k => if k = cid then some turns else st.conversations k }

/-- Update the `conversation_rag_context` dict at one key. -/
def ServerState.setRag (st : ServerState) (cid : String) (ctx : List Collection) : ServerState :=
  { st with conversation_rag_context :=
      fun k => if k = cid then some ctx else st.conversation_rag_context k }

/-- The empty server state at process start: both dicts empty. -/
def initState : ServerState :=
  { conversations := fun _ => none, conversation_rag_context := fun _ => none }

/-- Python whitespace for `str.strip()`: space, tab, newline, carriage return,
vertical tab, form feed. -/
def pyIsSpace (c : Char) : Bool :=
  c = ' ' || c = '\t' || c = '\n' || c = '\r' || c = '\x0B' || c = '\x0C'

/-- Python `str.strip()`: drop leading and trailing whitespace. -/
def py_strip (s : String) : String :=
  ⟨((s.data.dropWhile pyIsSpace).reverse.dropWhile pyIsSpace).reverse⟩

/-- Per-character escaping of `escape_for_json` (index.py lines 15-44).
The Python source applies seven sequential single-character `str.replace`
calls (backslash first, then quote, newline, carriage return, tab,
backspace, form feed).  Since every pattern is a single character and no
replacement string contains a pattern handled later, the sequential
replaces are equivalent to this single character-wise map. -/
def escapeChar (c : Char) : List Char :=
  if c = '\\' then ['\\', '\\']
  else if c = '"' then ['\\', '"']
  else if c = '\n' then ['\\', 'n']
  else if c = '\r' then ['\\', 'r']
  else if c = '\t' then ['\\', 't']
  else if c = '\x08' then ['\\', 'b']
  else if c = '\x0C' then ['\\', 'f']
  else [c]

/-- Embedding of `escape_for_json` (index.py lines 15-44): escape text for JSON transport. -/
def escape_for_json (text : String) : String :=
  ⟨(text.data.map escapeChar).flatten⟩

/-- A Python value as seen by the duck-typed checks of `chat_handler`:
the JSON body parsed on a 200, or an error string built by `llmproxy.py`.
Anything that is neither a list of retrieved groups nor a string is
collapsed to `pyother` (the handler only ever tests `isinstance(_, list)`
and truthiness on it). -/
inductive PyVal where
  | pylist (gs : List Collection)
  | pystr (s : String)
  | pyother
deriving DecidableEq, Repr

/-- Outcome of the one `requests.post` made by `retrieve`: either a response
with a status code and a (parsed) body, or a raised
`requests.exceptions.RequestException` with message `e`. -/
inductive RetrieveHttp where
  | response (status : Nat) (body : PyVal)
  | exn (e : String)
deriving DecidableEq, Repr

/-- Embedding of `retrieve` (llmproxy.py lines 16-46): returns the parsed body on a 200,
and an error *string* on a non-200 status or a transport exception.  It
never raises for those two failure modes (the `except` clause catches the
transport error). -/
def retrieve (_query : String) (_session_id : String) (_rag_threshold : ℚ) (_rag_k : ℕ)
    (http : RetrieveHttp) : PyVal :=
  match http with
  | .response status body =>
      if status = 200 then body
      else .pystr ("Error: Received response code " ++ toString status)
  | .exn e => .pystr ("An error occurred: " ++ e)

/-- Outcome of the one `requests.post` made by `generate`: a 200 whose body
parsed to `{"result": result, "rag_context": ragContext}`, a non-200
status, or a transport exception. -/
inductive GenHttp where
  | response200 (result : String) (ragContext : String)
  | responseCode (code : Nat)
  | exn (e : String)
deriving DecidableEq, Repr

/-- What `generate` returns to its caller: the dict
`{"response": ..., "rag_context": ...}` built on a 200, or an error string. -/
inductive GenReturn where
  | dict (response : String) (rag_context : String)
  | pystr (s : String)
deriving DecidableEq, Repr

/-- Embedding of `generate` (llmproxy.py lines 70-112): on a 200, repackages the parsed
body as `{"response": res["result"], "rag_context": res["rag_context"]}`;
on a non-200 status or transport exception, returns an error string. -/
def generate (_model _system _query : String) (_temperature : ℚ) (_lastk : ℕ)
    (_session_id : String) (_rag_usage : Bool) (http : GenHttp) : GenReturn :=
  match http with
  | .response200 result ragContext => .dict result ragContext
  | .responseCode code => .pystr ("Error: Received response code " ++ toString code)
  | .exn e => .pystr ("An error occurred: " ++ e)

/-- A retrieval backend outcome the claim set calls a failure: a transport
error or a non-200 status. -/
def retrieveFailed : RetrieveHttp → Bool
  | .response status _ => status != 200
  | .exn _ => true

/-- The fixed preamble sentence of `rag_context_string_simple`
(index.py lines 593-595), byte-for-byte including the source indentation. -/
def RAG_PREAMBLE : String :=
  "The following is additional context that may be\n                             helpful in answering the query. Use them only\n                             if it is relevant to the user\x27s query."

/-- The group header block `"\n        #{i} {summary}\n        "`
(index.py lines 597-599). -/
def groupLine (i : Nat) (summary : String) : String :=
  "\n        #" ++ toString i ++ " " ++ summary ++ "\n        "

/-- The chunk block `"\n            #{i}.{j} {chunk}\n            "`
(index.py lines 602-604). -/
def chunkLine (i j : Nat) (chunk : String) : String :=
  "\n            #" ++ toString i ++ "." ++ toString j ++ " " ++ chunk ++ "\n            "

/-- Inner loop of `rag_context_string_simple` over one group's chunks,
accumulating onto `cs` with chunk counter `j`. -/
def chunkLoop (chunks : List String) (cs : String) (i j : Nat) : String :=
  match chunks with
  | [] => cs
  | chunk :: rest => chunkLoop rest (cs ++ chunkLine i j chunk) i (j + 1)

/-- Outer loop of `rag_context_string_simple` over the groups, accumulating
onto `context_string` with group counter `i`; the preamble is inserted the
first time the accumulator is still empty. -/
def ragLoop (rag_context : List Collection) (context_string : String) (i : Nat) : String :=
  match rag_context with
  | [] => context_string
  | collection :: rest =>
      let cs := if context_string = "" then RAG_PREAMBLE else context_string
      let cs := cs ++ groupLine i collection.doc_summary
      let cs := chunkLoop collection.chunks cs i 1
      ragLoop rest cs (i + 1)

/-- Embedding of `rag_context_string_simple` (index.py lines 587-607): render the
accumulated retrieved groups into one numbered context block. -/
def rag_context_string_simple (rag_context : List Collection) : String :=
  ragLoop rag_context "" 1

/-- Overwrite `conversations[cid][0]["content"]`.  If the conversation is
missing or empty Python would raise (KeyError / IndexError); `ensure`
always precedes this call, so those branches are unreachable and modelled
as no-ops. -/
def set_system_content (st : ServerState) (cid : String) (content : String) : ServerState :=
  match st.conversations cid with
  | none => st
  | some [] => st
  | some (t :: ts) => st.setConv cid ({ t with content := content } :: ts)

/-- Embedding of `update_conversation_system_prompt` (index.py lines 616-627): reset
turn 0 to the base prompt when no context is accumulated, else to
`base ++ "\n\n" ++ rendered context`. -/
def update_conversation_system_prompt (st : ServerState) (conversation_id : String)
    (base_system_prompt : String) : ServerState :=
  match st.conversation_rag_context conversation_id with
  | none => set_system_content st conversation_id base_system_prompt
  | some ctx =>
      if ctx = [] then set_system_content st conversation_id base_system_prompt
      else set_system_content st conversation_id
        (base_system_prompt ++ "\n\n" ++ rag_context_string_simple ctx)

/-- Conversation initialisation (index.py lines 278-283): on an unseen id,
seed `conversations[cid]` with the single system turn and
`conversation_rag_context[cid]` with the empty list. -/
def ensure_conversation (base : String) (st : ServerState) (cid : String) : ServerState :=
  match st.conversations cid with
  | some _ => st
  | none => (st.setConv cid [⟨"system", base⟩]).setRag cid []

/-- Read `conversations[cid][0]["content"]` (index.py line 334); the
missing/empty branches are unreachable after `ensure` and totalised to `""`. -/
def system_prompt_of (st : ServerState) (cid : String) : String :=
  match st.conversations cid with
  | some (t :: _) => t.content
  | _ => ""

/-- The two history appends (index.py lines 357-358): user turn then
assistant turn, at the end of the conversation's turn list. -/
def append_exchange (st : ServerState) (cid : String) (userText assistantText : String) :
    ServerState :=
  st.setConv cid (((st.conversations cid).getD []) ++
    [⟨"user", userText⟩, ⟨"assistant", assistantText⟩])

/-- The retrieval block (index.py lines 295-331): call `retrieve` with the
escaped message and the fixed policy constants; if (and only if) the result
is a non-empty list, extend the accumulated context and refresh the system
prompt.  Any other result — including the error strings `retrieve` builds
on failure — leaves the state untouched. -/
def retrieval_merge (base : String) (http : RetrieveHttp) (st : ServerState) (cid : String)
    (message : String) : ServerState :=
  let rag_context := retrieve (escape_for_json message) "GenericSession" (0.4 : ℚ) 5 http
  match rag_context with
  | .pylist gs =>
      if gs = [] then st
      else
        let st := st.setRag cid (((st.conversation_rag_context cid).getD []) ++ gs)
        update_conversation_system_prompt st cid base
  | _ => st

/-- Result normalisation (index.py lines 351-354): extract `response["response"]`
when the backend returned the structured dict, else `str(response)` — which
for the error strings `generate` produces is the string itself. -/
def normalize_response (r : GenReturn) : String :=
  match r with
  | .dict response _ => response
  | .pystr s => s

/-- A point at which an unexpected exception can be raised inside the
streaming generator `generate_events` (outside the retrieval block's own
`try`), e.g. in the logging service before the first frame, while reading
the prompt after the loading frame, or inside `generate` (say a KeyError
on a malformed 200 body) after the thinking frame.  The surrounding
`try`/`except` then yields the single generic error frame. -/
inductive StreamFailPoint where
  | beforeLoading
  | afterLoading
  | afterThinking
deriving DecidableEq, Repr

/-- The environment of one request: what each backend call would produce,
the `DEVELOPMENT_MODE` flag, and an optional injected internal fault for
the streaming handler. -/
structure BackendEnv where
  retrieveHttp : RetrieveHttp
  genHttp : GenHttp
  developmentMode : Bool
  streamFail : Option StreamFailPoint
deriving DecidableEq, Repr

/-- One inbound request as the handlers see it: the authentication result
`utln` (`none` means unauthenticated), the platform string, the answer of
`is_authorized_cs15_student`, and the JSON body's `message` and optional
`conversationId`. -/
structure ChatRequest where
  utln : Option String
  platform : String
  authorized : Bool
  message : String
  conversationId : Option String
deriving DecidableEq, Repr

/-- The parameters of the one `retrieve` call a request makes. -/
structure RetrieveCall where
  query : String
  session_id : String
  rag_threshold : ℚ
  rag_k : ℕ
deriving DecidableEq, Repr

/-- The parameters of the one `generate` call a request makes. -/
structure GenerateCall where
  model : String
  system : String
  query : String
  temperature : ℚ
  lastk : ℕ
  session_id : String
  rag_usage : Bool
deriving DecidableEq, Repr

/-- What `chat_handler` replies: an error JSON with an HTTP status, or the
200 payload `{"response", "rag_context", "conversation_id"}`. -/
inductive ChatResponse where
  | failure (status : Nat) (error : String)
  | ok (response : String) (rag_context : String) (conversation_id : String)
deriving DecidableEq, Repr

/-- The observable outcome of one `/api` request: the reply plus a record
of which backend calls were made and with which parameters. -/
structure ChatResult where
  response : ChatResponse
  retrieveCall : Option RetrieveCall
  generateCall : Option GenerateCall
deriving DecidableEq, Repr

/-- The development-mode prompt refresh (index.py lines 286-288): refresh
the system prompt on every request when `DEVELOPMENT_MODE` is set. -/
def dev_refresh (base : String) (env : BackendEnv) (st : ServerState) (cid : String) :
    ServerState :=
  if env.developmentMode then update_conversation_system_prompt st cid base else st

/-- The body of `chat_handler` past the three request guards
(index.py lines 276-392): conversation initialisation, optional
development-mode prompt refresh, window-size computation, best-effort
retrieval merge, generation with the fixed policy constants,
normalisation, and the user/assistant append. -/
def chat_success (base : String) (env : BackendEnv) (st : ServerState)
    (message conversation_id : String) : ServerState × ChatResult :=
  let st1 := ensure_conversation base st conversation_id
  let st2 := dev_refresh base env st1 conversation_id
  let num_previous_pairs := (((st2.conversations conversation_id).getD []).length - 1) / 2
  let st3 := retrieval_merge base env.retrieveHttp st2 conversation_id message
  let enhanced_system_prompt := system_prompt_of st3 conversation_id
  let response := generate "4o-mini" (escape_for_json enhanced_system_prompt)
    (escape_for_json message) (0.7 : ℚ) num_previous_pairs conversation_id false
    env.genHttp
  let assistant_response := normalize_response response
  let st4 := append_exchange st3 conversation_id message assistant_response
  let accumulated := (st4.conversation_rag_context conversation_id).getD []
  let accumulated_rag_context :=
    if accumulated = [] then "" else rag_context_string_simple accumulated
  (st4, { response := .ok assistant_response accumulated_rag_context conversation_id,
          retrieveCall := some
            { query := escape_for_json message, session_id := "GenericSession",
              rag_threshold := (0.4 : ℚ), rag_k := 5 },
          generateCall := some
            { model := "4o-mini", system := escape_for_json enhanced_system_prompt,
              query := escape_for_json message, temperature := (0.7 : ℚ),
              lastk := num_previous_pairs, session_id := conversation_id,
              rag_usage := false } })

/-- Embedding of `chat_handler` for `POST /api` (index.py lines 244-396), as a state
transformer: authentication, authorization and blank-message checks, then
the success body `chat_success`. -/
def chat_handler (base : String) (env : BackendEnv) (st : ServerState) (req : ChatRequest) :
    ServerState × ChatResult :=
  match req.utln with
  | none =>
      (st, { response := .failure 401
               "Authentication required. Please log in with your Tufts credentials.",
             retrieveCall := none, generateCall := none })
  | some _ =>
      if !req.authorized then
        (st, { response := .failure 403 "Access denied. You must be enrolled in CS 15.",
               retrieveCall := none, generateCall := none })
      else
        if py_strip req.message = "" then
          (st, { response := .failure 400 "Message is required",
                 retrieveCall := none, generateCall := none })
        else
          chat_success base env st req.message (req.conversationId.getD "default")

/-- One server-push frame of the `/api/stream` event stream.  Every frame
except `noStatusError` carries a `"status"` field; `noStatusError` is the
literal `{"error": ...}` object of index.py line 431, which has none. -/
inductive Frame where
  | statusError (error : String)
  | loading (message : String)
  | thinking (message : String)
  | complete (response : String) (rag_context : String) (conversation_id : String)
  | noStatusError (error : String)
deriving DecidableEq, Repr

/-- Embedding of `chat_handler_stream` for `POST /api/stream` (index.py lines 404-579),
as a state transformer returning the ordered list of emitted frames.
Unexpected internal exceptions inside `generate_events` are modelled by
`env.streamFail` and yield the generic error frame, as the generator's
`try`/`except` does. -/
def chat_handler_stream (base : String) (env : BackendEnv) (st : ServerState)
    (req : ChatRequest) : ServerState × List Frame :=
  match req.utln with
  | none =>
      (st, [.statusError "Authentication required. Please log in with your Tufts credentials."])
  | some _ =>
      if !req.authorized then
        (st, [.statusError "Access denied. You must be enrolled in CS 15."])
      else
        let message := req.message
        let conversation_id := req.conversationId.getD "default"
        if py_strip message = "" then
          (st, [.noStatusError "Message is required"])
        else if env.streamFail = some .beforeLoading then
          (st, [.statusError "Sorry, an error occurred while processing your request."])
        else
          let st1 := ensure_conversation base st conversation_id
          let st2 := if env.developmentMode then
              update_conversation_system_prompt st1 conversation_id base
            else st1
          let num_previous_pairs := (((st2.conversations conversation_id).getD []).length - 1) / 2
          let st3 := retrieval_merge base env.retrieveHttp st2 conversation_id message
          if env.streamFail = some .afterLoading then
            (st3, [.loading "Looking at course content...",
                   .statusError "Sorry, an error occurred while processing your request."])
          else
            let enhanced_system_prompt := system_prompt_of st3 conversation_id
            if env.streamFail = some .afterThinking then
              (st3, [.loading "Looking at course content...", .thinking "Thinking...",
                     .statusError "Sorry, an error occurred while processing your request."])
            else
              let response := generate "4o-mini" (escape_for_json enhanced_system_prompt)
                (escape_for_json message) (0.7 : ℚ) num_previous_pairs conversation_id false
                env.genHttp
              let assistant_response := normalize_response response
              let st4 := append_exchange st3 conversation_id message assistant_response
              let accumulated := (st4.conversation_rag_context conversation_id).getD []
              let accumulated_rag_context :=
                if accumulated = [] then "" else rag_context_string_simple accumulated
              (st4, [.loading "Looking at course content...", .thinking "Thinking...",
                     .complete assistant_response accumulated_rag_context conversation_id])

/-- One step of a request trace: the backend environment for the request
plus the request itself. -/
structure Step where
  env : BackendEnv
  req : ChatRequest
deriving DecidableEq, Repr

/-- Run a sequence of `/api` requests through `chat_handler`, threading the
server state and collecting each request's result in order. -/
def run (base : String) (st : ServerState) : List Step → ServerState × List ChatResult
  | [] => (st, [])
  | s :: rest =>
      let r := chat_handler base s.env st s.req
      let rr := run base r.1 rest
      (rr.1, r.2 :: rr.2)

/-- A request that passes the three guards of the handlers: authenticated,
authorized, and a message that is non-blank after `strip()`. -/
def successInput (req : ChatRequest) : Bool :=
  req.utln.isSome && req.authorized && !(py_strip req.message = "")

/-- The groups a retrieval outcome contributes: the parsed list on a 200
whose body is a list, nothing otherwise. -/
def yieldsGroups (http : RetrieveHttp) : List Collection :=
  match http with
  | .response status body =>
      if status = 200 then
        match body with
        | .pylist gs => gs
        | _ => []
      else []
  | .exn _ => []

/-- The effective system prompt formula of the specification: the base
prompt alone when no context is accumulated, else the base prompt, a blank
line, and the rendered context. -/
def EffectiveSystemPrompt (base : String) (ctx : List Collection) : String :=
  if ctx = [] then base else base ++ "\n\n" ++ rag_context_string_simple ctx

/-- The chunk blocks of one group, numbered `#i.j` with `j` counting from
its start value. -/
def chunkBlocks (chunks : List String) (i j : Nat) : String :=
  match chunks with
  | [] => ""
  | c :: rest => chunkLine i j c ++ chunkBlocks rest i (j + 1)

/-- The full numbered block one group contributes to the rendering. -/
def group_block (i : Nat) (g : Collection) : String :=
  groupLine i g.doc_summary ++ chunkBlocks g.chunks i 1

/-- The concatenated numbered blocks of a group list, with group numbering
starting at `i`. -/
def blocksFrom (gs : List Collection) (i : Nat) : String :=
  match gs with
  | [] => ""
  | g :: rest => group_block i g ++ blocksFrom rest (i + 1)

/-- Pointwise form of the effective-prompt invariant: the conversation at
`cid` exists, is non-empty, and its head turn's content is the effective
system prompt for the currently accumulated context. -/
def convSynced (b : String) (st : ServerState) (cid : String) : Prop :=
  ∃ t ts, st.conversations cid = some (t :: ts) ∧
    t.content = EffectiveSystemPrompt b ((st.conversation_rag_context cid).getD [])

/-- The effective-prompt invariant of the specification: every existing
conversation's turn 0 holds the effective system prompt for its
accumulated context. -/
def promptInvariant (b : String) (st : ServerState) : Prop :=
  ∀ cid, st.conversations cid = none ∨ convSynced b st cid

/-- No conversation has any accumulated retrieval context. -/
def ragEmptyInv (st : ServerState) : Prop :=
  ∀ cid, (st.conversation_rag_context cid).getD [] = []

/-- The state after the guards, conversation initialisation and the
optional development-mode refresh of one success-path request. -/
def pre_state (b : String) (env : BackendEnv) (st : ServerState) (cid : String) : ServerState :=
  dev_refresh b env (ensure_conversation b st cid) cid

/-- The `lastk` window the success path computes: completed user/assistant
pairs before the current exchange, `(len(turns) - 1) // 2`. -/
def window_of (b : String) (env : BackendEnv) (st : ServerState) (cid : String) : ℕ :=
  ((((pre_state b env st cid).conversations cid).getD []).length - 1) / 2

/-- The state after the retrieval-merge stage of one success-path request. -/
def merged_state (b : String) (env : BackendEnv) (st : ServerState) (m cid : String) :
    ServerState :=
  retrieval_merge b env.retrieveHttp (pre_state b env st cid) cid m

/-- The normalised text of a generation outcome, independent of the call
parameters: the `result` of a structured 200, else the error string. -/
def assistant_of (http : GenHttp) : String :=
  match http with
  | .response200 result _ => result
  | .responseCode code => "Error: Received response code " ++ toString code
  | .exn e => "An error occurred: " ++ e

/-- The assistant text the success path appends and returns. -/
def assistant_response_of (b : String) (env : BackendEnv) (st : ServerState) (m cid : String) :
    String :=
  normalize_response (generate "4o-mini"
    (escape_for_json (system_prompt_of (merged_state b env st m cid) cid))
    (escape_for_json m) (0.7 : ℚ) (window_of b env st cid) cid false env.genHttp)

/-- The final state of one success-path request. -/
def final_state (b : String) (env : BackendEnv) (st : ServerState) (m cid : String) :
    ServerState :=
  append_exchange (merged_state b env st m cid) cid m (assistant_response_of b env st m cid)

/-- The `rag_context` string returned by the success path: the rendering of
the whole accumulated context, or `""` when none is accumulated. -/
def rag_string_after (b : String) (env : BackendEnv) (st : ServerState) (m cid : String) :
    String :=
  let accumulated := ((final_state b env st m cid).conversation_rag_context cid).getD []
  if accumulated = [] then "" else rag_context_string_simple accumulated

/-- The frame-sequence shape the staged-mode claim asserts: the frames in
strict order `loading → thinking → complete`, or an early termination with
a `status: error` frame, with exactly one terminal frame, every frame
carrying a status. -/
def stagedShapeOk : List Frame → Bool
  | [.statusError _] => true
  | [.loading _, .statusError _] => true
  | [.loading _, .thinking _, .statusError _] => true
  | [.loading _, .thinking _, .complete _ _ _] => true
  | _ => false

/-- A concrete retrieved group, for witnesses. -/
def gW : Collection := ⟨"Lecture 5", ["Inheritance lets a class reuse another\x27s members."]⟩

/-- A second concrete retrieved group, for witnesses. -/
def gW2 : Collection := ⟨"Lecture 6", ["Templates generalise code over types."]⟩

/-- A request environment whose retrieval succeeds with one group. -/
def envW : BackendEnv := ⟨.response 200 (.pylist [gW]), .response200 "answer one" "", false, none⟩

/-- A request environment whose retrieval returns an empty list. -/
def envWempty : BackendEnv :=
  ⟨.response 200 (.pylist []), .response200 "answer two" "", false, none⟩

/-- A request environment whose retrieval call gets a 500. -/
def envWfail : BackendEnv := ⟨.response 500 .pyother, .response200 "answer three" "", false, none⟩

/-- An authenticated, authorized request on conversation `c1`. -/
def reqW1 : ChatRequest := ⟨some "alice", "web", true, "What is inheritance?", some "c1"⟩

/-- A second authenticated, authorized request on conversation `c1`. -/
def reqW2 : ChatRequest := ⟨some "bob", "vscode", true, "What about derived classes?", some "c1"⟩

/-- An authorized request whose message is blank after stripping. -/
def reqWblank : ChatRequest := ⟨some "alice", "web", true, "   ", some "c1"⟩

/-- An unauthenticated request. -/
def reqWanon : ChatRequest := ⟨none, "web", true, "hello", some "c1"⟩

/-- An authenticated but unauthorized request. -/
def reqWdenied : ChatRequest := ⟨some "mallory", "web", false, "hello", some "c1"⟩

/-- A request from one user that omits `conversationId`. -/
def reqUdef1 : ChatRequest := ⟨some "alice", "web", true, "shared question", none⟩

/-- A request from a different user, same message, omitting `conversationId`. -/
def reqUdef2 : ChatRequest := ⟨some "bob", "vscode", true, "shared question", none⟩

/-- A second-user request with its own message, omitting `conversationId`. -/
def reqUdef3 : ChatRequest := ⟨some "bob", "vscode", true, "another question", none⟩

theorem str_append_ne_empty_left (a b : String) (h : a ≠ "") : a ++ b ≠ "" := by
  intro hc
  apply h
  have hd := congrArg String.data hc
  rw [String.data_append] at hd
  exact String.ext (List.append_eq_nil.mp hd).1

theorem chunkLoop_eq (chunks : List String) (cs : String) (i j : Nat) :
    chunkLoop chunks cs i j = cs ++ chunkBlocks chunks i j := by
  induction chunks generalizing cs j with
  | nil => simp [chunkLoop, chunkBlocks]
  | cons c rest ih => simp [chunkLoop, chunkBlocks, ih, String.append_assoc]

theorem groupLine_ne_empty (i : Nat) (s : String) : groupLine i s ≠ "" := by
  unfold groupLine
  apply str_append_ne_empty_left
  apply str_append_ne_empty_left
  apply str_append_ne_empty_left
  apply str_append_ne_empty_left
  decide

theorem group_block_ne_empty (i : Nat) (g : Collection) : group_block i g ≠ "" :=
  str_append_ne_empty_left _ _ (groupLine_ne_empty i g.doc_summary)

theorem ragLoop_cons (g : Collection) (rest : List Collection) (cs : String) (i : Nat) :
    ragLoop (g :: rest) cs i =
      ragLoop rest
        (chunkLoop g.chunks ((if cs = "" then RAG_PREAMBLE else cs) ++
          groupLine i g.doc_summary) i 1) (i + 1) := rfl

theorem ragLoop_eq (l : List Collection) (cs : String) (i : Nat) (h : cs ≠ "") :
    ragLoop l cs i = cs ++ blocksFrom l i := by
  induction l generalizing cs i with
  | nil => simp [ragLoop, blocksFrom]
  | cons g rest ih =>
      rw [ragLoop_cons, if_neg h, chunkLoop_eq,
        ih _ _ (str_append_ne_empty_left _ _ (str_append_ne_empty_left _ _ h))]
      simp [blocksFrom, group_block, String.append_assoc]

theorem rag_render_closed_form (l : List Collection) :
    rag_context_string_simple l = if l = [] then "" else RAG_PREAMBLE ++ blocksFrom l 1 := by
  cases l with
  | nil => rfl
  | cons g rest =>
      show ragLoop (g :: rest) "" 1 = RAG_PREAMBLE ++ blocksFrom (g :: rest) 1
      rw [ragLoop_cons, if_pos rfl, chunkLoop_eq,
        ragLoop_eq _ _ _ (str_append_ne_empty_left _ _
          (str_append_ne_empty_left _ _ (by decide)))]
      simp [blocksFrom, group_block, String.append_assoc]

theorem blocksFrom_append (a b : List Collection) (i : Nat) :
    blocksFrom (a ++ b) i = blocksFrom a i ++ blocksFrom b (i + a.length) := by
  induction a generalizing i with
  | nil => simp [blocksFrom]
  | cons g rest ih =>
      simp [blocksFrom, ih, String.append_assoc, Nat.add_comm, Nat.add_assoc,
        Nat.add_left_comm]

@[simp] theorem setConv_conv_self (st : ServerState) (cid : String) (ts : List Turn) :
    (st.setConv cid ts).conversations cid = some ts := by
  simp [ServerState.setConv]

theorem setConv_conv_other (st : ServerState) (cid : String) (ts : List Turn) (k : String)
    (h : k ≠ cid) : (st.setConv cid ts).conversations k = st.conversations k := by
  simp [ServerState.setConv, h]

@[simp] theorem setConv_rag (st : ServerState) (cid : String) (ts : List Turn) :
    (st.setConv cid ts).conversation_rag_context = st.conversation_rag_context := rfl

@[simp] theorem setRag_conv (st : ServerState) (cid : String) (ctx : List Collection) :
    (st.setRag cid ctx).conversations = st.conversations := rfl

@[simp] theorem setRag_rag_self (st : ServerState) (cid : String) (ctx : List Collection) :
    (st.setRag cid ctx).conversation_rag_context cid = some ctx := by
  simp [ServerState.setRag]

theorem setRag_rag_other (st : ServerState) (cid : String) (ctx : List Collection) (k : String)
    (h : k ≠ cid) : (st.setRag cid ctx).conversation_rag_context k =
      st.conversation_rag_context k := by
  simp [ServerState.setRag, h]

theorem set_system_content_of_cons (st : ServerState) (cid c : String) (t : Turn)
    (ts : List Turn) (h : st.conversations cid = some (t :: ts)) :
    set_system_content st cid c = st.setConv cid ({ t with content := c } :: ts) := by
  simp [set_system_content, h]

theorem set_system_content_rag (st : ServerState) (cid c : String) :
    (set_system_content st cid c).conversation_rag_context = st.conversation_rag_context := by
  unfold set_system_content
  cases h : st.conversations cid with
  | none => rfl
  | some ts => cases ts <;> rfl

theorem set_system_content_conv_other (st : ServerState) (cid c k : String) (h : k ≠ cid) :
    (set_system_content st cid c).conversations k = st.conversations k := by
  unfold set_system_content
  cases hc : st.conversations cid with
  | none => rfl
  | some ts => cases ts with
      | nil => rfl
      | cons t rest => simp [setConv_conv_other _ _ _ _ h]

theorem set_system_content_len (st : ServerState) (cid c : String) :
    (((set_system_content st cid c).conversations cid).getD []).length =
      ((st.conversations cid).getD []).length := by
  unfold set_system_content
  cases hc : st.conversations cid with
  | none => simp [hc]
  | some ts => cases ts with
      | nil => simp [hc]
      | cons t rest => simp [hc]

theorem update_rag (st : ServerState) (cid b : String) :
    (update_conversation_system_prompt st cid b).conversation_rag_context =
      st.conversation_rag_context := by
  unfold update_conversation_system_prompt
  cases h : st.conversation_rag_context cid with
  | none => exact set_system_content_rag ..
  | some ctx =>
      by_cases hc : ctx = [] <;> simp [hc, set_system_content_rag]

theorem update_conv_other (st : ServerState) (cid b k : String) (h : k ≠ cid) :
    (update_conversation_system_prompt st cid b).conversations k = st.conversations k := by
  unfold update_conversation_system_prompt
  cases hr : st.conversation_rag_context cid with
  | none => exact set_system_content_conv_other _ _ _ _ h
  | some ctx =>
      by_cases hc : ctx = [] <;> simp [hc, set_system_content_conv_other _ _ _ _ h]

theorem update_of_cons (st : ServerState) (cid b : String) (t : Turn) (ts : List Turn)
    (h : st.conversations cid = some (t :: ts)) :
    (update_conversation_system_prompt st cid b).conversations cid =
      some ({ t with content :=
        EffectiveSystemPrompt b ((st.conversation_rag_context cid).getD []) } :: ts) := by
  unfold update_conversation_system_prompt EffectiveSystemPrompt
  cases hr : st.conversation_rag_context cid with
  | none => simp [set_system_content_of_cons _ _ _ _ _ h]
  | some ctx =>
      by_cases hc : ctx = [] <;> simp [hc, set_system_content_of_cons _ _ _ _ _ h]

theorem update_len (st : ServerState) (cid b : String) :
    (((update_conversation_system_prompt st cid b).conversations cid).getD []).length =
      ((st.conversations cid).getD []).length := by
  unfold update_conversation_system_prompt
  cases hr : st.conversation_rag_context cid with
  | none => exact set_system_content_len ..
  | some ctx =>
      by_cases hc : ctx = [] <;> simp [hc, set_system_content_len]

theorem ensure_of_some (b : String) (st : ServerState) (cid : String) (ts : List Turn)
    (h : st.conversations cid = some ts) : ensure_conversation b st cid = st := by
  simp [ensure_conversation, h]

theorem ensure_of_none (b : String) (st : ServerState) (cid : String)
    (h : st.conversations cid = none) :
    ensure_conversation b st cid = (st.setConv cid [⟨"system", b⟩]).setRag cid [] := by
  simp [ensure_conversation, h]

theorem ensure_conv_other (b : String) (st : ServerState) (cid k : String) (h : k ≠ cid) :
    (ensure_conversation b st cid).conversations k = st.conversations k := by
  unfold ensure_conversation
  cases hc : st.conversations cid with
  | some ts => rfl
  | none => simp [setConv_conv_other _ _ _ _ h]

theorem ensure_rag_other (b : String) (st : ServerState) (cid k : String) (h : k ≠ cid) :
    (ensure_conversation b st cid).conversation_rag_context k =
      st.conversation_rag_context k := by
  unfold ensure_conversation
  cases hc : st.conversations cid with
  | some ts => rfl
  | none => simp [setRag_rag_other _ _ _ _ h]

@[simp] theorem append_conv_self (st : ServerState) (cid u a : String) :
    (append_exchange st cid u a).conversations cid =
      some (((st.conversations cid).getD []) ++ [⟨"user", u⟩, ⟨"assistant", a⟩]) := by
  simp [append_exchange]

theorem append_conv_other (st : ServerState) (cid u a k : String) (h : k ≠ cid) :
    (append_exchange st cid u a).conversations k = st.conversations k := by
  simp [append_exchange, setConv_conv_other _ _ _ _ h]

@[simp] theorem append_rag (st : ServerState) (cid u a : String) :
    (append_exchange st cid u a).conversation_rag_context = st.conversation_rag_context := rfl

theorem retrieve_result_of_failed (q sid : String) (t : ℚ) (k : ℕ) (http : RetrieveHttp)
    (h : retrieveFailed http = true) : ∃ s, retrieve q sid t k http = .pystr s := by
  cases http with
  | response status body =>
      simp only [retrieveFailed, bne_iff_ne, ne_eq] at h
      exact ⟨"Error: Received response code " ++ toString status, by simp [retrieve, h]⟩
  | exn e => exact ⟨"An error occurred: " ++ e, rfl⟩

theorem merge_of_failed (b : String) (http : RetrieveHttp) (st : ServerState) (cid m : String)
    (h : retrieveFailed http = true) : retrieval_merge b http st cid m = st := by
  cases http with
  | response status body =>
      simp only [retrieveFailed, bne_iff_ne, ne_eq] at h
      simp [retrieval_merge, retrieve, h]
  | exn e => simp [retrieval_merge, retrieve]

theorem merge_of_no_groups (b : String) (http : RetrieveHttp) (st : ServerState) (cid m : String)
    (h : yieldsGroups http = []) : retrieval_merge b http st cid m = st := by
  cases http with
  | response status body =>
      by_cases hs : status = 200
      · subst hs
        cases body with
        | pylist gs =>
            have hg : gs = [] := by simpa [yieldsGroups] using h
            simp [retrieval_merge, retrieve, hg]
        | pystr s => simp [retrieval_merge, retrieve]
        | pyother => simp [retrieval_merge, retrieve]
      · simp [retrieval_merge, retrieve, hs]
  | exn e => simp [retrieval_merge, retrieve]

theorem yields_ne_shape (http : RetrieveHttp) (h : yieldsGroups http ≠ []) :
    http = .response 200 (.pylist (yieldsGroups http)) := by
  cases http with
  | response status body =>
      by_cases hs : status = 200
      · subst hs
        cases body with
        | pylist gs => simp [yieldsGroups]
        | pystr s => simp [yieldsGroups] at h
        | pyother => simp [yieldsGroups] at h
      · simp [yieldsGroups, hs] at h
  | exn e => simp [yieldsGroups] at h

theorem merge_of_groups (b : String) (http : RetrieveHttp) (st : ServerState) (cid m : String)
    (h : yieldsGroups http ≠ []) :
    retrieval_merge b http st cid m =
      update_conversation_system_prompt
        (st.setRag cid (((st.conversation_rag_context cid).getD []) ++ yieldsGroups http))
        cid b := by
  rw [yields_ne_shape http h]
  have h2 : yieldsGroups (RetrieveHttp.response 200 (.pylist (yieldsGroups http))) =
      yieldsGroups http := by simp [yieldsGroups]
  rw [h2]
  simp [retrieval_merge, retrieve, h]

theorem merge_rag_getD (b : String) (http : RetrieveHttp) (st : ServerState) (cid m : String) :
    ((retrieval_merge b http st cid m).conversation_rag_context cid).getD [] =
      ((st.conversation_rag_context cid).getD []) ++ yieldsGroups http := by
  by_cases h : yieldsGroups http = []
  · rw [merge_of_no_groups b http st cid m h, h, List.append_nil]
  · rw [merge_of_groups b http st cid m h, update_rag]
    simp

theorem merge_conv_other (b : String) (http : RetrieveHttp) (st : ServerState) (cid m k : String)
    (hk : k ≠ cid) : (retrieval_merge b http st cid m).conversations k = st.conversations k := by
  by_cases h : yieldsGroups http = []
  · rw [merge_of_no_groups b http st cid m h]
  · rw [merge_of_groups b http st cid m h, update_conv_other _ _ _ _ hk]
    rfl

theorem merge_rag_other (b : String) (http : RetrieveHttp) (st : ServerState) (cid m k : String)
    (hk : k ≠ cid) : (retrieval_merge b http st cid m).conversation_rag_context k =
      st.conversation_rag_context k := by
  by_cases h : yieldsGroups http = []
  · rw [merge_of_no_groups b http st cid m h]
  · rw [merge_of_groups b http st cid m h, update_rag, setRag_rag_other _ _ _ _ hk]

theorem merge_len (b : String) (http : RetrieveHttp) (st : ServerState) (cid m : String) :
    (((retrieval_merge b http st cid m).conversations cid).getD []).length =
      ((st.conversations cid).getD []).length := by
  by_cases h : yieldsGroups http = []
  · rw [merge_of_no_groups b http st cid m h]
  · rw [merge_of_groups b http st cid m h, update_len]
    simp

theorem update_synced (b : String) (st : ServerState) (cid : String) (t : Turn) (ts : List Turn)
    (h : st.conversations cid = some (t :: ts)) :
    convSynced b (update_conversation_system_prompt st cid b) cid := by
  refine ⟨_, ts, update_of_cons st cid b t ts h, ?_⟩
  rw [update_rag]

theorem ensure_synced (b : String) (st : ServerState) (cid : String)
    (h : st.conversations cid = none ∨ convSynced b st cid) :
    convSynced b (ensure_conversation b st cid) cid := by
  rcases h with h | ⟨t, ts, hc, hcontent⟩
  · rw [ensure_of_none b st cid h]
    exact ⟨⟨"system", b⟩, [], by simp, by simp [EffectiveSystemPrompt]⟩
  · rw [ensure_of_some b st cid _ hc]
    exact ⟨t, ts, hc, hcontent⟩

theorem dev_refresh_synced (b : String) (env : BackendEnv) (st : ServerState) (cid : String)
    (h : convSynced b st cid) : convSynced b (dev_refresh b env st cid) cid := by
  unfold dev_refresh
  split
  · rcases h with ⟨t, ts, hc, _⟩
    exact update_synced b st cid t ts hc
  · exact h

theorem merge_synced (b : String) (http : RetrieveHttp) (st : ServerState) (cid m : String)
    (h : convSynced b st cid) : convSynced b (retrieval_merge b http st cid m) cid := by
  by_cases hy : yieldsGroups http = []
  · rw [merge_of_no_groups b http st cid m hy]
    exact h
  · rw [merge_of_groups b http st cid m hy]
    rcases h with ⟨t, ts, hc, _⟩
    exact update_synced b _ cid t ts hc

theorem append_synced (b : String) (st : ServerState) (cid u a : String)
    (h : convSynced b st cid) : convSynced b (append_exchange st cid u a) cid := by
  rcases h with ⟨t, ts, hc, hcontent⟩
  refine ⟨t, ts ++ [⟨"user", u⟩, ⟨"assistant", a⟩], ?_, ?_⟩
  · rw [append_conv_self, hc]
    simp
  · rw [append_rag]
    exact hcontent

theorem chat_success_eq (b : String) (env : BackendEnv) (st : ServerState) (m cid : String) :
    chat_success b env st m cid =
      (final_state b env st m cid,
       { response := .ok (assistant_response_of b env st m cid)
           (rag_string_after b env st m cid) cid,
         retrieveCall := some
           { query := escape_for_json m, session_id := "GenericSession",
             rag_threshold := (0.4 : ℚ), rag_k := 5 },
         generateCall := some
           { model := "4o-mini",
             system := escape_for_json (system_prompt_of (merged_state b env st m cid) cid),
             query := escape_for_json m, temperature := (0.7 : ℚ),
             lastk := window_of b env st cid, session_id := cid,
             rag_usage := false } }) := rfl

theorem assistant_response_of_eq (b : String) (env : BackendEnv) (st : ServerState)
    (m cid : String) : assistant_response_of b env st m cid = assistant_of env.genHttp := by
  unfold assistant_response_of
  cases env.genHttp <;> rfl

theorem chat_handler_of_success (b : String) (env : BackendEnv) (st : ServerState)
    (req : ChatRequest) (h : successInput req = true) :
    chat_handler b env st req = chat_success b env st req.message
      (req.conversationId.getD "default") := by
  unfold successInput at h
  cases hu : req.utln with
  | none => rw [hu] at h; simp at h
  | some u =>
      rw [hu] at h
      simp only [Option.isSome_some, Bool.true_and, Bool.and_eq_true,
        Bool.not_eq_true', decide_eq_false_iff_not] at h
      unfold chat_handler
      rw [hu]
      simp [h.1, h.2]

theorem chat_handler_unauthenticated (b : String) (env : BackendEnv) (st : ServerState)
    (req : ChatRequest) (h : req.utln = none) :
    chat_handler b env st req = (st,
      { response := .failure 401
          "Authentication required. Please log in with your Tufts credentials.",
        retrieveCall := none, generateCall := none }) := by
  unfold chat_handler
  rw [h]

theorem chat_handler_unauthorized (b : String) (env : BackendEnv) (st : ServerState)
    (req : ChatRequest) (u : String) (hu : req.utln = some u) (h : req.authorized = false) :
    chat_handler b env st req = (st,
      { response := .failure 403 "Access denied. You must be enrolled in CS 15.",
        retrieveCall := none, generateCall := none }) := by
  unfold chat_handler
  rw [hu]
  simp [h]

theorem chat_handler_blank (b : String) (env : BackendEnv) (st : ServerState)
    (req : ChatRequest) (u : String) (hu : req.utln = some u) (ha : req.authorized = true)
    (hm : py_strip req.message = "") :
    chat_handler b env st req = (st,
      { response := .failure 400 "Message is required",
        retrieveCall := none, generateCall := none }) := by
  unfold chat_handler
  rw [hu]
  simp [ha, hm]

theorem stream_unauthenticated (b : String) (env : BackendEnv) (st : ServerState)
    (req : ChatRequest) (h : req.utln = none) :
    chat_handler_stream b env st req = (st,
      [.statusError "Authentication required. Please log in with your Tufts credentials."]) := by
  unfold chat_handler_stream
  rw [h]

theorem stream_unauthorized (b : String) (env : BackendEnv) (st : ServerState)
    (req : ChatRequest) (u : String) (hu : req.utln = some u) (h : req.authorized = false) :
    chat_handler_stream b env st req = (st,
      [.statusError "Access denied. You must be enrolled in CS 15."]) := by
  unfold chat_handler_stream
  rw [hu]
  simp [h]

theorem final_state_conv (b : String) (env : BackendEnv) (st : ServerState) (m cid : String) :
    (final_state b env st m cid).conversations cid =
      some ((((merged_state b env st m cid).conversations cid).getD []) ++
        [⟨"user", m⟩, ⟨"assistant", assistant_response_of b env st m cid⟩]) :=
  append_conv_self ..

theorem pre_state_len (b : String) (env : BackendEnv) (st : ServerState) (cid : String) :
    (((pre_state b env st cid).conversations cid).getD []).length =
      (((ensure_conversation b st cid).conversations cid).getD []).length := by
  unfold pre_state dev_refresh
  split
  · exact update_len ..
  · rfl

theorem ensure_len_of_none (b : String) (st : ServerState) (cid : String)
    (h : st.conversations cid = none) :
    (((ensure_conversation b st cid).conversations cid).getD []).length = 1 := by
  rw [ensure_of_none b st cid h]
  simp

theorem ensure_len_of_some (b : String) (st : ServerState) (cid : String) (ts : List Turn)
    (h : st.conversations cid = some ts) :
    (((ensure_conversation b st cid).conversations cid).getD []).length = ts.length := by
  rw [ensure_of_some b st cid ts h, h]
  rfl

theorem final_state_len (b : String) (env : BackendEnv) (st : ServerState) (m cid : String) :
    (((final_state b env st m cid).conversations cid).getD []).length =
      (((pre_state b env st cid).conversations cid).getD []).length + 2 := by
  unfold final_state
  rw [append_conv_self]
  simp only [Option.getD_some, List.length_append, List.length_cons, List.length_nil]
  unfold merged_state
  rw [merge_len]

theorem final_state_rag (b : String) (env : BackendEnv) (st : ServerState) (m cid : String) :
    ((final_state b env st m cid).conversation_rag_context cid).getD [] =
      (((pre_state b env st cid).conversation_rag_context cid).getD []) ++
        yieldsGroups env.retrieveHttp := by
  unfold final_state merged_state
  rw [append_rag, merge_rag_getD]

theorem pre_state_rag (b : String) (env : BackendEnv) (st : ServerState) (cid : String) :
    (pre_state b env st cid).conversation_rag_context cid =
      (ensure_conversation b st cid).conversation_rag_context cid := by
  unfold pre_state dev_refresh
  split
  · rw [update_rag]
  · rfl

theorem final_state_conv_other (b : String) (env : BackendEnv) (st : ServerState)
    (m cid k : String) (hk : k ≠ cid) :
    (final_state b env st m cid).conversations k = st.conversations k := by
  unfold final_state merged_state pre_state dev_refresh
  rw [append_conv_other _ _ _ _ _ hk, merge_conv_other _ _ _ _ _ _ hk]
  split
  · rw [update_conv_other _ _ _ _ hk, ensure_conv_other _ _ _ _ hk]
  · rw [ensure_conv_other _ _ _ _ hk]

theorem final_state_rag_other (b : String) (env : BackendEnv) (st : ServerState)
    (m cid k : String) (hk : k ≠ cid) :
    (final_state b env st m cid).conversation_rag_context k =
      st.conversation_rag_context k := by
  unfold final_state merged_state pre_state dev_refresh
  rw [append_rag, merge_rag_other _ _ _ _ _ _ hk]
  split
  · rw [update_rag, ensure_rag_other _ _ _ _ hk]
  · rw [ensure_rag_other _ _ _ _ hk]

theorem final_state_synced (b : String) (env : BackendEnv) (st : ServerState) (m cid : String)
    (h : st.conversations cid = none ∨ convSynced b st cid) :
    convSynced b (final_state b env st m cid) cid := by
  unfold final_state merged_state pre_state
  exact append_synced _ _ _ _ _ (merge_synced _ _ _ _ _
    (dev_refresh_synced _ _ _ _ (ensure_synced _ _ _ h)))

theorem chat_handler_preserves_promptInvariant (b : String) (env : BackendEnv)
    (st : ServerState) (req : ChatRequest) (hinv : promptInvariant b st) :
    promptInvariant b (chat_handler b env st req).1 := by
  by_cases hs : successInput req = true
  · rw [chat_handler_of_success b env st req hs, chat_success_eq]
    intro k
    by_cases hk : k = req.conversationId.getD "default"
    · subst hk
      exact Or.inr (final_state_synced b env st req.message _ (hinv _))
    · rcases hinv k with h | ⟨t, ts, hc, hcontent⟩
      · exact Or.inl (by rw [final_state_conv_other _ _ _ _ _ _ hk]; exact h)
      · refine Or.inr ⟨t, ts, ?_, ?_⟩
        · rw [final_state_conv_other _ _ _ _ _ _ hk]; exact hc
        · rw [final_state_rag_other _ _ _ _ _ _ hk]; exact hcontent
  · unfold successInput at hs
    cases hu : req.utln with
    | none => rw [chat_handler_unauthenticated b env st req hu]; exact hinv
    | some u =>
        rw [hu] at hs
        simp only [Option.isSome_some, Bool.true_and, Bool.and_eq_true,
          Bool.not_eq_true', decide_eq_false_iff_not, not_and, Bool.not_eq_true] at hs
        by_cases ha : req.authorized = true
        · rw [chat_handler_blank b env st req u hu ha (not_not.mp (hs ha))]
          exact hinv
        · rw [chat_handler_unauthorized b env st req u hu (by simpa using ha)]
          exact hinv

theorem run_preserves_promptInvariant (b : String) (steps : List Step) (st : ServerState)
    (h : promptInvariant b st) : promptInvariant b (run b st steps).1 := by
  induction steps generalizing st with
  | nil => exact h
  | cons s rest ih =>
      exact ih _ (chat_handler_preserves_promptInvariant b s.env st s.req h)

theorem promptInvariant_init (b : String) : promptInvariant b initState :=
  fun _ => Or.inl rfl

theorem ensure_ragEmpty (b : String) (st : ServerState) (cid k : String)
    (hrag : (st.conversation_rag_context k).getD [] = []) :
    ((ensure_conversation b st cid).conversation_rag_context k).getD [] = [] := by
  cases hc : st.conversations cid with
  | some ts => rw [ensure_of_some b st cid ts hc]; exact hrag
  | none =>
      rw [ensure_of_none b st cid hc]
      by_cases hk : k = cid
      · subst hk; simp
      · rw [setRag_rag_other _ _ _ _ hk, setConv_rag]
        exact hrag

theorem chat_handler_preserves_ragEmpty (b : String) (env : BackendEnv) (st : ServerState)
    (req : ChatRequest) (hrag : ragEmptyInv st) (hy : yieldsGroups env.retrieveHttp = []) :
    ragEmptyInv (chat_handler b env st req).1 := by
  by_cases hs : successInput req = true
  · rw [chat_handler_of_success b env st req hs, chat_success_eq]
    intro k
    by_cases hk : k = req.conversationId.getD "default"
    · subst hk
      rw [final_state_rag, hy, List.append_nil, pre_state_rag]
      exact ensure_ragEmpty b st _ _ (hrag _)
    · rw [final_state_rag_other _ _ _ _ _ _ hk]
      exact hrag k
  · unfold successInput at hs
    cases hu : req.utln with
    | none => rw [chat_handler_unauthenticated b env st req hu]; exact hrag
    | some u =>
        rw [hu] at hs
        simp only [Option.isSome_some, Bool.true_and, Bool.and_eq_true,
          Bool.not_eq_true', decide_eq_false_iff_not, not_and, Bool.not_eq_true] at hs
        by_cases ha : req.authorized = true
        · rw [chat_handler_blank b env st req u hu ha (not_not.mp (hs ha))]
          exact hrag
        · rw [chat_handler_unauthorized b env st req u hu (by simpa using ha)]
          exact hrag

theorem run_preserves_ragEmpty (b : String) (steps : List Step) (st : ServerState)
    (hrag : ragEmptyInv st) (hy : ∀ s ∈ steps, yieldsGroups s.env.retrieveHttp = []) :
    ragEmptyInv (run b st steps).1 := by
  induction steps generalizing st with
  | nil => exact hrag
  | cons s rest ih =>
      exact ih _ (chat_handler_preserves_ragEmpty b s.env st s.req hrag
        (hy s (List.mem_cons_self s rest))) (fun x hx => hy x (List.mem_cons_of_mem s hx))

theorem chat_success_facts (b : String) (env : BackendEnv) (st : ServerState) (m cid : String) :
    (((chat_success b env st m cid).1.conversations cid).getD []).length =
        (((ensure_conversation b st cid).conversations cid).getD []).length + 2 ∧
    (chat_success b env st m cid).2.generateCall = some
      { model := "4o-mini",
        system := escape_for_json (system_prompt_of (merged_state b env st m cid) cid),
        query := escape_for_json m, temperature := (0.7 : ℚ),
        lastk := ((((ensure_conversation b st cid).conversations cid).getD []).length - 1) / 2,
        session_id := cid, rag_usage := false } := by
  rw [chat_success_eq]
  constructor
  · show (((final_state b env st m cid).conversations cid).getD []).length = _
    rw [final_state_len, pre_state_len]
  · show some _ = some _
    rw [show window_of b env st cid =
      ((((ensure_conversation b st cid).conversations cid).getD []).length - 1) / 2 by
        unfold window_of; rw [pre_state_len]]

theorem pre_state_shape (b : String) (env : BackendEnv) (st : ServerState) (cid : String)
    (t : Turn) (ts : List Turn)
    (h : (ensure_conversation b st cid).conversations cid = some (t :: ts)) :
    ∃ t2, (pre_state b env st cid).conversations cid = some (t2 :: ts) := by
  unfold pre_state dev_refresh
  split
  · exact ⟨_, update_of_cons _ cid b t ts h⟩
  · exact ⟨t, h⟩

theorem merged_shape (b : String) (env : BackendEnv) (st : ServerState) (m cid : String)
    (t : Turn) (ts : List Turn)
    (h : (pre_state b env st cid).conversations cid = some (t :: ts)) :
    ∃ t2, (merged_state b env st m cid).conversations cid = some (t2 :: ts) := by
  unfold merged_state
  by_cases hy : yieldsGroups env.retrieveHttp = []
  · rw [merge_of_no_groups _ _ _ _ _ hy]
    exact ⟨t, h⟩
  · rw [merge_of_groups _ _ _ _ _ hy]
    exact ⟨_, update_of_cons _ cid b t ts h⟩

theorem chat_success_shape (b : String) (env : BackendEnv) (st : ServerState) (m cid : String)
    (t : Turn) (ts : List Turn)
    (h : (ensure_conversation b st cid).conversations cid = some (t :: ts)) :
    ∃ t2 a, (chat_success b env st m cid).1.conversations cid =
      some (t2 :: (ts ++ [⟨"user", m⟩, ⟨"assistant", a⟩])) := by
  rw [chat_success_eq]
  obtain ⟨t1, h1⟩ := pre_state_shape b env st cid t ts h
  obtain ⟨t2, h2⟩ := merged_shape b env st m cid t1 ts h1
  refine ⟨t2, assistant_response_of b env st m cid, ?_⟩
  show (final_state b env st m cid).conversations cid = _
  rw [final_state_conv, h2]
  simp

theorem run_cons (b : String) (st : ServerState) (s : Step) (rest : List Step) :
    run b st (s :: rest) =
      ((run b (chat_handler b s.env st s.req).1 rest).1,
       (chat_handler b s.env st s.req).2 :: (run b (chat_handler b s.env st s.req).1 rest).2) :=
  rfl

theorem chat_success_conv_some (b : String) (env : BackendEnv) (st : ServerState)
    (m cid : String) :
    (chat_success b env st m cid).1.conversations cid =
      some ((((merged_state b env st m cid).conversations cid).getD []) ++
        [⟨"user", m⟩, ⟨"assistant", assistant_response_of b env st m cid⟩]) := by
  rw [chat_success_eq]
  exact final_state_conv ..

theorem run_window_invariant (b : String) (cid : String) (steps : List Step)
    (hok : ∀ s ∈ steps, successInput s.req = true)
    (hcid : ∀ s ∈ steps, s.req.conversationId.getD "default" = cid)
    (st : ServerState) (ts : List Turn) (k : ℕ)
    (hst : st.conversations cid = some ts) (hlen : ts.length = 2 * k + 1) :
    (∃ ts2, (run b st steps).1.conversations cid = some ts2 ∧
       ts2.length = 2 * (k + steps.length) + 1) ∧
    (∀ n r, (run b st steps).2.get? n = some r →
       ∃ c, r.generateCall = some c ∧ c.lastk = k + n) := by
  induction steps generalizing st ts k with
  | nil =>
      refine ⟨⟨ts, hst, by simp [hlen]⟩, ?_⟩
      intro n r h
      simp [run] at h
  | cons s rest ih =>
      have hs := hok s (List.mem_cons_self s rest)
      have hc := hcid s (List.mem_cons_self s rest)
      have hstep : chat_handler b s.env st s.req = chat_success b s.env st s.req.message cid := by
        rw [chat_handler_of_success b s.env st s.req hs, hc]
      have hensure : ensure_conversation b st cid = st := ensure_of_some b st cid ts hst
      have hconv := chat_success_conv_some b s.env st s.req.message cid
      have hlen2 : ((((chat_success b s.env st s.req.message cid).1.conversations cid).getD
          []).length) = 2 * (k + 1) + 1 := by
        rw [(chat_success_facts b s.env st s.req.message cid).1, hensure, hst]
        simp [hlen]
        ring
      rw [hconv] at hlen2
      simp only [Option.getD_some] at hlen2
      obtain ⟨hrest, hres⟩ := ih
        (fun x hx => hok x (List.mem_cons_of_mem s hx))
        (fun x hx => hcid x (List.mem_cons_of_mem s hx))
        (chat_success b s.env st s.req.message cid).1 _ (k + 1) hconv hlen2
      constructor
      · obtain ⟨ts2, h1, h2⟩ := hrest
        refine ⟨ts2, ?_, ?_⟩
        · rw [run_cons, hstep]
          exact h1
        · rw [h2]
          simp
          ring
      · intro n r h
        rw [run_cons, hstep] at h
        cases n with
        | zero =>
            simp only [List.get?_cons_zero, Option.some.injEq] at h
            subst h
            refine ⟨_, (chat_success_facts b s.env st s.req.message cid).2, ?_⟩
            show ((((ensure_conversation b st cid).conversations cid).getD []).length - 1) / 2 =
              k + 0
            rw [hensure, hst]
            simp only [Option.getD_some, hlen]
            omega
        | succ m =>
            simp only [List.get?_cons_succ] at h
            obtain ⟨c, h1, h2⟩ := hres m r h
            exact ⟨c, h1, by omega⟩

set_option maxRecDepth 40000

/-- Claim C7: for every accumulated sequence of retrieved groups and every
newly merged suffix, rendering the extended sequence equals the rendering
of the old sequence with the new groups' numbered blocks appended after
it (numbering continuing at `old.length + 1`); earlier text is never
reordered, renumbered or mutated, and rendering order equals append
order. -/
theorem rendering_is_append_extension (old new : List Collection) (h : old ≠ []) :
    rag_context_string_simple (old ++ new) =
      rag_context_string_simple old ++ blocksFrom new (old.length + 1) := by
  rw [rag_render_closed_form, rag_render_closed_form]
  rw [if_neg h, if_neg (by simp [h] : ¬(old ++ new = []))]
  rw [blocksFrom_append, Nat.add_comm 1 old.length, String.append_assoc]

theorem rendering_is_append_extension_witness :
    rag_context_string_simple ([gW] ++ [gW2]) =
      rag_context_string_simple [gW] ++ blocksFrom [gW2] ([gW].length + 1) :=
  rendering_is_append_extension [gW] [gW2] (by decide)

/-- Claim C8: the context rendering is a pure, deterministic function of the
accumulated sequence — rendering the same sequence twice yields
byte-identical text (and it has no effect on any state, being a plain
function in this embedding) — and rendering the empty sequence yields the
empty string. -/
theorem render_deterministic_and_empty :
    rag_context_string_simple [] = "" ∧
    ∀ l : List Collection, rag_context_string_simple l = rag_context_string_simple l :=
  ⟨rfl, fun _ => rfl⟩

/-- Claim C9: on the success path, the retrieval backend is always invoked
with the fixed constants threshold `0.4`, `k = 5` and collection key
`GenericSession`, and the generation backend with model `4o-mini`,
temperature `0.7` and backend-side RAG disabled — for every request and
state, so no request field influences them. -/
theorem fixed_policy_constants (b : String) (env : BackendEnv) (st : ServerState)
    (req : ChatRequest) (hs : successInput req = true) :
    (chat_handler b env st req).2.retrieveCall = some
      { query := escape_for_json req.message, session_id := "GenericSession",
        rag_threshold := (0.4 : ℚ), rag_k := 5 } ∧
    ∃ c, (chat_handler b env st req).2.generateCall = some c ∧
      c.model = "4o-mini" ∧ c.temperature = (0.7 : ℚ) ∧ c.rag_usage = false := by
  rw [chat_handler_of_success b env st req hs, chat_success_eq]
  exact ⟨rfl, _, rfl, rfl, rfl, rfl⟩

theorem fixed_policy_constants_witness :
    (chat_handler "bp" envW initState reqW1).2.retrieveCall = some
      { query := escape_for_json reqW1.message, session_id := "GenericSession",
        rag_threshold := (0.4 : ℚ), rag_k := 5 } ∧
    ∃ c, (chat_handler "bp" envW initState reqW1).2.generateCall = some c ∧
      c.model = "4o-mini" ∧ c.temperature = (0.7 : ℚ) ∧ c.rag_usage = false :=
  fixed_policy_constants "bp" envW initState reqW1 (by decide)

/-- Claim C5: an unauthenticated request gets a 401-class failure (error
JSON on `/api`, a single auth-error frame on `/api/stream`) and an
authenticated but unauthorized request a 403-class failure, in both cases
with no backend call and the server state returned unchanged — so the
conversation is not created if absent and its turn count is unchanged if
present. -/
theorem auth_failures_short_circuit (b : String) (env : BackendEnv) (st : ServerState)
    (req : ChatRequest) :
    (req.utln = none →
      chat_handler b env st req = (st,
        { response := .failure 401
            "Authentication required. Please log in with your Tufts credentials.",
          retrieveCall := none, generateCall := none }) ∧
      chat_handler_stream b env st req = (st,
        [.statusError "Authentication required. Please log in with your Tufts credentials."])) ∧
    (∀ u, req.utln = some u → req.authorized = false →
      chat_handler b env st req = (st,
        { response := .failure 403 "Access denied. You must be enrolled in CS 15.",
          retrieveCall := none, generateCall := none }) ∧
      chat_handler_stream b env st req = (st,
        [.statusError "Access denied. You must be enrolled in CS 15."])) :=
  ⟨fun h => ⟨chat_handler_unauthenticated b env st req h,
      stream_unauthenticated b env st req h⟩,
   fun u hu ha => ⟨chat_handler_unauthorized b env st req u hu ha,
      stream_unauthorized b env st req u hu ha⟩⟩

theorem auth_failures_short_circuit_witness :
    (chat_handler "bp" envW initState reqWanon = (initState,
        { response := .failure 401
            "Authentication required. Please log in with your Tufts credentials.",
          retrieveCall := none, generateCall := none }) ∧
      chat_handler_stream "bp" envW initState reqWanon = (initState,
        [.statusError "Authentication required. Please log in with your Tufts credentials."])) ∧
    (chat_handler "bp" envW initState reqWdenied = (initState,
        { response := .failure 403 "Access denied. You must be enrolled in CS 15.",
          retrieveCall := none, generateCall := none }) ∧
      chat_handler_stream "bp" envW initState reqWdenied = (initState,
        [.statusError "Access denied. You must be enrolled in CS 15."])) :=
  ⟨(auth_failures_short_circuit "bp" envW initState reqWanon).1 rfl,
   (auth_failures_short_circuit "bp" envW initState reqWdenied).2 "mallory" rfl rfl⟩

/-- Claim C6: for every generation-backend result, the success path
normalises the result to text — extracting the `response` text of a
structured mapping, stringifying the raw value (here, the error string)
otherwise — and always appends exactly the two turns user-then-assistant,
so a generation failure still completes the exchange with the error text
as the assistant content. -/
theorem generation_result_normalized_and_appended (b : String) (env : BackendEnv)
    (st : ServerState) (req : ChatRequest) (hs : successInput req = true) :
    ∃ pre rc,
      (chat_handler b env st req).1.conversations (req.conversationId.getD "default") =
        some (pre ++ [⟨"user", req.message⟩, ⟨"assistant", assistant_of env.genHttp⟩]) ∧
      (chat_handler b env st req).2.response =
        .ok (assistant_of env.genHttp) rc (req.conversationId.getD "default") ∧
      (∀ result ragc, env.genHttp = .response200 result ragc →
        assistant_of env.genHttp = result) ∧
      (∀ code, env.genHttp = .responseCode code →
        assistant_of env.genHttp = "Error: Received response code " ++ toString code) ∧
      (∀ e, env.genHttp = .exn e →
        assistant_of env.genHttp = "An error occurred: " ++ e) := by
  rw [chat_handler_of_success b env st req hs]
  refine ⟨((merged_state b env st req.message (req.conversationId.getD "default")).conversations
      (req.conversationId.getD "default")).getD [],
    rag_string_after b env st req.message (req.conversationId.getD "default"), ?_, ?_, ?_, ?_, ?_⟩
  · rw [chat_success_conv_some, assistant_response_of_eq]
  · rw [chat_success_eq]
    show ChatResponse.ok (assistant_response_of b env st req.message _) _ _ = _
    rw [assistant_response_of_eq]
  · intro result ragc h; rw [h]; rfl
  · intro code h; rw [h]; rfl
  · intro e h; rw [h]; rfl

theorem generation_result_normalized_and_appended_witness :
    ∃ pre rc,
      (chat_handler "bp" envWfail initState reqW1).1.conversations
          (reqW1.conversationId.getD "default") =
        some (pre ++ [⟨"user", reqW1.message⟩,
          ⟨"assistant", assistant_of envWfail.genHttp⟩]) ∧
      (chat_handler "bp" envWfail initState reqW1).2.response =
        .ok (assistant_of envWfail.genHttp) rc (reqW1.conversationId.getD "default") ∧
      (∀ result ragc, envWfail.genHttp = .response200 result ragc →
        assistant_of envWfail.genHttp = result) ∧
      (∀ code, envWfail.genHttp = .responseCode code →
        assistant_of envWfail.genHttp = "Error: Received response code " ++ toString code) ∧
      (∀ e, envWfail.genHttp = .exn e →
        assistant_of envWfail.genHttp = "An error occurred: " ++ e) :=
  generation_result_normalized_and_appended "bp" envWfail initState reqW1 (by decide)

theorem yields_of_failed (http : RetrieveHttp) (h : retrieveFailed http = true) :
    yieldsGroups http = [] := by
  cases http with
  | response status body =>
      simp only [retrieveFailed, bne_iff_ne, ne_eq] at h
      simp [yieldsGroups, h]
  | exn e => rfl

theorem ensure_rag_getD_eq (b : String) (st : ServerState) (cid : String)
    (h : st.conversations cid = none → (st.conversation_rag_context cid).getD [] = []) :
    ((ensure_conversation b st cid).conversation_rag_context cid).getD [] =
      (st.conversation_rag_context cid).getD [] := by
  cases hc : st.conversations cid with
  | some ts => rw [ensure_of_some b st cid ts hc]
  | none =>
      rw [ensure_of_none b st cid hc, h hc]
      simp

/-- Claim C3 counterexample: on a retrieval-backend failure (here a 500
status), `retrieve` does not return an empty sequence of retrieved
groups — it returns the error string the adapter builds. -/
theorem retrieve_failure_returns_error_string_cex :
    retrieve "query" "GenericSession" (0.4 : ℚ) 5 (.response 500 .pyother) =
      .pystr "Error: Received response code 500" ∧
    retrieve "query" "GenericSession" (0.4 : ℚ) 5 (.response 500 .pyother) ≠
      PyVal.pylist [] := by
  constructor
  · rfl
  · decide

/-- Claim C3 (amended): when the retrieval backend fails (transport error
or non-200 status), `retrieve` returns an error string — not an empty
sequence — and never raises for those failure modes; the orchestrator's
list-type check then treats it as zero retrieved groups, so the request
still completes as a 200 with a generated answer and the conversation's
accumulated context is left unchanged (no new groups merged). -/
theorem retrieval_failure_best_effort (b : String) (env : BackendEnv) (st : ServerState)
    (req : ChatRequest) (hs : successInput req = true)
    (hf : retrieveFailed env.retrieveHttp = true)
    (h0 : st.conversations (req.conversationId.getD "default") = none →
      (st.conversation_rag_context (req.conversationId.getD "default")).getD [] = []) :
    (∃ s, retrieve (escape_for_json req.message) "GenericSession" (0.4 : ℚ) 5
        env.retrieveHttp = .pystr s) ∧
    ((chat_handler b env st req).1.conversation_rag_context
        (req.conversationId.getD "default")).getD [] =
      (st.conversation_rag_context (req.conversationId.getD "default")).getD [] ∧
    ∃ rc, (chat_handler b env st req).2.response =
      .ok (assistant_of env.genHttp) rc (req.conversationId.getD "default") := by
  refine ⟨retrieve_result_of_failed _ _ _ _ _ hf, ?_, ?_⟩
  · rw [chat_handler_of_success b env st req hs, chat_success_eq]
    show ((final_state b env st req.message _).conversation_rag_context _).getD [] = _
    rw [final_state_rag, yields_of_failed _ hf, List.append_nil, pre_state_rag]
    exact ensure_rag_getD_eq b st _ h0
  · rw [chat_handler_of_success b env st req hs, chat_success_eq]
    refine ⟨rag_string_after b env st req.message (req.conversationId.getD "default"), ?_⟩
    show ChatResponse.ok (assistant_response_of b env st req.message _) _ _ = _
    rw [assistant_response_of_eq]

theorem retrieval_failure_best_effort_witness :
    (∃ s, retrieve (escape_for_json reqW1.message) "GenericSession" (0.4 : ℚ) 5
        envWfail.retrieveHttp = .pystr s) ∧
    ((chat_handler "bp" envWfail initState reqW1).1.conversation_rag_context
        (reqW1.conversationId.getD "default")).getD [] =
      (initState.conversation_rag_context (reqW1.conversationId.getD "default")).getD [] ∧
    ∃ rc, (chat_handler "bp" envWfail initState reqW1).2.response =
      .ok (assistant_of envWfail.genHttp) rc (reqW1.conversationId.getD "default") :=
  retrieval_failure_best_effort "bp" envWfail initState reqW1 (by decide) (by decide)
    (fun _ => rfl)

/-- Claim C4 counterexample: an authenticated, authorized request whose
message is blank makes the staged endpoint emit the single status-less
frame `{"error": "Message is required"}` — which carries no `status` field
and is neither a `complete` nor a `status: error` terminal frame — so the
claimed frame discipline fails on this input. -/
theorem stream_blank_message_shape_cex :
    (chat_handler_stream "bp" envW initState reqWblank).2 =
      [.noStatusError "Message is required"] ∧
    stagedShapeOk (chat_handler_stream "bp" envW initState reqWblank).2 = false := by
  constructor
  · rfl
  · rfl

/-- Claim C4 (amended): for every staged-delivery request except the
blank-message case (an authorized caller whose message strips to empty,
which gets one status-less `{"error": ...}` frame), the emitted frames are
in strict order `loading → thinking → complete`, or terminate early with a
`status: error` frame, with exactly one terminal frame per request and
every frame carrying a status from the claimed set. -/
theorem stream_frame_shape (b : String) (env : BackendEnv) (st : ServerState)
    (req : ChatRequest)
    (h : py_strip req.message ≠ "" ∨ req.utln = none ∨ req.authorized = false) :
    stagedShapeOk (chat_handler_stream b env st req).2 = true := by
  cases hu : req.utln with
  | none => rw [stream_unauthenticated b env st req hu]; rfl
  | some u =>
      by_cases ha : req.authorized = true
      · have hm : py_strip req.message ≠ "" := by
          rcases h with h | h | h
          · exact h
          · rw [hu] at h; exact absurd h (by simp)
          · rw [h] at ha; exact absurd ha (by simp)
        unfold chat_handler_stream
        rw [hu]
        simp only [ha, Bool.not_true, Bool.false_eq_true, if_false, if_neg hm]
        rcases hsf : env.streamFail with _ | fp
        · simp [hsf, stagedShapeOk]
        · cases fp <;> simp [hsf, stagedShapeOk]
      · rw [stream_unauthorized b env st req u hu (by simpa using ha)]
        rfl

theorem stream_frame_shape_witness :
    stagedShapeOk (chat_handler_stream "bp" envW initState reqW1).2 = true :=
  stream_frame_shape "bp" envW initState reqW1 (Or.inl (by decide))

/-- Claim C1: after any non-empty sequence of N successful exchanges on the
same conversation id starting from a fresh server, the conversation's turn
list has length exactly 2N+1, and the window (`lastk`) passed to the
generation backend on the (n+1)-st exchange equals n — it is computed as
`(len(turns) - 1) // 2` before the current user/assistant turns are
appended. -/
theorem window_size_and_turn_count (b cid : String) (steps : List Step)
    (hne : steps ≠ [])
    (hok : ∀ s ∈ steps, successInput s.req = true)
    (hcid : ∀ s ∈ steps, s.req.conversationId.getD "default" = cid) :
    (∃ ts, (run b initState steps).1.conversations cid = some ts ∧
       ts.length = 2 * steps.length + 1) ∧
    (∀ n r, (run b initState steps).2.get? n = some r →
       ∃ c, r.generateCall = some c ∧ c.lastk = n) := by
  cases steps with
  | nil => exact absurd rfl hne
  | cons s rest =>
      have hs := hok s (List.mem_cons_self s rest)
      have hc := hcid s (List.mem_cons_self s rest)
      have hstep : chat_handler b s.env initState s.req =
          chat_success b s.env initState s.req.message cid := by
        rw [chat_handler_of_success b s.env initState s.req hs, hc]
      have hnone : initState.conversations cid = none := rfl
      have hconv := chat_success_conv_some b s.env initState s.req.message cid
      have hlen1 : ((((chat_success b s.env initState s.req.message cid).1.conversations
          cid).getD []).length) = 2 * 1 + 1 := by
        rw [(chat_success_facts b s.env initState s.req.message cid).1,
          ensure_len_of_none b initState cid hnone]
      rw [hconv] at hlen1
      simp only [Option.getD_some] at hlen1
      obtain ⟨hrest, hres⟩ := run_window_invariant b cid rest
        (fun x hx => hok x (List.mem_cons_of_mem s hx))
        (fun x hx => hcid x (List.mem_cons_of_mem s hx))
        (chat_success b s.env initState s.req.message cid).1 _ 1 hconv hlen1
      constructor
      · obtain ⟨ts2, h1, h2⟩ := hrest
        refine ⟨ts2, ?_, ?_⟩
        · rw [run_cons, hstep]
          exact h1
        · rw [h2]
          simp
          ring
      · intro n r h
        rw [run_cons, hstep] at h
        cases n with
        | zero =>
            simp only [List.get?_cons_zero, Option.some.injEq] at h
            subst h
            refine ⟨_, (chat_success_facts b s.env initState s.req.message cid).2, ?_⟩
            show ((((ensure_conversation b initState cid).conversations cid).getD
              []).length - 1) / 2 = 0
            rw [ensure_len_of_none b initState cid hnone]
        | succ m =>
            simp only [List.get?_cons_succ] at h
            obtain ⟨c, h1, h2⟩ := hres m r h
            exact ⟨c, h1, by omega⟩

theorem window_size_and_turn_count_witness :
    (∃ ts, (run "bp" initState [⟨envW, reqW1⟩, ⟨envWempty, reqW2⟩]).1.conversations "c1" =
        some ts ∧ ts.length = 2 * ([⟨envW, reqW1⟩, ⟨envWempty, reqW2⟩] : List Step).length + 1) ∧
    (∀ n r, (run "bp" initState [⟨envW, reqW1⟩, ⟨envWempty, reqW2⟩]).2.get? n = some r →
       ∃ c, r.generateCall = some c ∧ c.lastk = n) :=
  window_size_and_turn_count "bp" "c1" [⟨envW, reqW1⟩, ⟨envWempty, reqW2⟩]
    (by decide) (by decide) (by decide)

/-- Claim C2: in every state reachable by any request sequence from a fresh
server, every existing conversation's turn 0 content equals
`base ++ "\n\n" ++ render(accumulated context)` when the accumulated
context is non-empty and exactly the base prompt when it is empty; in
particular, when retrieval yields no groups on every request, turn 0 stays
byte-identical to the base prompt. -/
theorem system_prompt_sync (b : String) (steps : List Step) :
    promptInvariant b (run b initState steps).1 ∧
    ((∀ s ∈ steps, yieldsGroups s.env.retrieveHttp = []) → ∀ cid,
      (run b initState steps).1.conversations cid = none ∨
      ∃ t rest, (run b initState steps).1.conversations cid = some (t :: rest) ∧
        t.content = b) := by
  constructor
  · exact run_preserves_promptInvariant b steps initState (promptInvariant_init b)
  · intro hy cid
    rcases run_preserves_promptInvariant b steps initState (promptInvariant_init b) cid with
      h | ⟨t, ts, hc, hcontent⟩
    · exact Or.inl h
    · refine Or.inr ⟨t, ts, hc, ?_⟩
      rw [hcontent, run_preserves_ragEmpty b steps initState (fun _ => rfl) hy cid]
      rfl

theorem system_prompt_sync_witness :
    (run "bp" initState [⟨envWempty, reqW1⟩]).1.conversations "c1" = none ∨
    ∃ t rest, (run "bp" initState [⟨envWempty, reqW1⟩]).1.conversations "c1" =
      some (t :: rest) ∧ t.content = "bp" :=
  (system_prompt_sync "bp" [⟨envWempty, reqW1⟩]).2 (by decide) "c1"

/-- Claim C10: conversation selection depends only on the request's
`conversationId` field and never on the authenticated subject: two
authorized requests agreeing on `message` and `conversationId` produce
identical handler outcomes regardless of subject or platform, and two
successful exchanges that both omit `conversationId` — even from distinct
users — share the single `"default"` conversation, whose turn list then
holds both user messages in order. -/
theorem conversation_selection_ignores_subject (b : String) :
    (∀ (env : BackendEnv) (st : ServerState) (r1 r2 : ChatRequest) (u1 u2 : String),
       r1.utln = some u1 → r2.utln = some u2 →
       r1.authorized = true → r2.authorized = true →
       r1.message = r2.message → r1.conversationId = r2.conversationId →
       chat_handler b env st r1 = chat_handler b env st r2) ∧
    (∀ s1 s2 : Step, successInput s1.req = true → successInput s2.req = true →
       s1.req.conversationId = none → s2.req.conversationId = none →
       ∃ ts, (run b initState [s1, s2]).1.conversations "default" = some ts ∧
         ts.length = 5 ∧
         ts.get? 1 = some ⟨"user", s1.req.message⟩ ∧
         ts.get? 3 = some ⟨"user", s2.req.message⟩) := by
  constructor
  · intro env st r1 r2 u1 u2 hu1 hu2 ha1 ha2 hm hcid
    by_cases hb : py_strip r1.message = ""
    · rw [chat_handler_blank b env st r1 u1 hu1 ha1 hb,
        chat_handler_blank b env st r2 u2 hu2 ha2 (by rw [← hm]; exact hb)]
    · have hs1 : successInput r1 = true := by
        unfold successInput
        rw [hu1, ha1]
        simp [hb]
      have hs2 : successInput r2 = true := by
        unfold successInput
        rw [hu2, ha2]
        simp [← hm, hb]
      rw [chat_handler_of_success b env st r1 hs1, chat_handler_of_success b env st r2 hs2,
        hm, hcid]
  · intro s1 s2 hs1 hs2 hc1 hc2
    have hstep1 : chat_handler b s1.env initState s1.req =
        chat_success b s1.env initState s1.req.message "default" := by
      rw [chat_handler_of_success b s1.env initState s1.req hs1, hc1]
      rfl
    have hensure1 : (ensure_conversation b initState "default").conversations "default" =
        some (⟨"system", b⟩ :: []) := by
      rw [ensure_of_none b initState "default" rfl]
      simp
    obtain ⟨t2, a1, hshape1⟩ :=
      chat_success_shape b s1.env initState s1.req.message "default" ⟨"system", b⟩ [] hensure1
    simp only [List.nil_append] at hshape1
    have hstep2 : chat_handler b s2.env
        ((chat_success b s1.env initState s1.req.message "default").1) s2.req =
        chat_success b s2.env
          ((chat_success b s1.env initState s1.req.message "default").1)
          s2.req.message "default" := by
      rw [chat_handler_of_success b s2.env _ s2.req hs2, hc2]
      rfl
    have hensure2 : (ensure_conversation b
        ((chat_success b s1.env initState s1.req.message "default").1)
        "default").conversations "default" =
        some (t2 :: [⟨"user", s1.req.message⟩, ⟨"assistant", a1⟩]) := by
      rw [ensure_of_some b _ "default" _ hshape1]
      exact hshape1
    obtain ⟨t3, a2, hshape2⟩ := chat_success_shape b s2.env
      ((chat_success b s1.env initState s1.req.message "default").1) s2.req.message "default"
      t2 [⟨"user", s1.req.message⟩, ⟨"assistant", a1⟩] hensure2
    refine ⟨t3 :: ([⟨"user", s1.req.message⟩, ⟨"assistant", a1⟩] ++
      [⟨"user", s2.req.message⟩, ⟨"assistant", a2⟩]), ?_, ?_, ?_, ?_⟩
    · rw [run_cons, hstep1, run_cons, hstep2]
      exact hshape2
    · rfl
    · rfl
    · rfl

theorem conversation_selection_ignores_subject_witness :
    chat_handler "bp" envW initState reqUdef1 = chat_handler "bp" envW initState reqUdef2 ∧
    ∃ ts, (run "bp" initState [⟨envW, reqUdef1⟩, ⟨envWempty, reqUdef3⟩]).1.conversations
        "default" = some ts ∧ ts.length = 5 ∧
      ts.get? 1 = some ⟨"user", reqUdef1.message⟩ ∧
      ts.get? 3 = some ⟨"user", reqUdef3.message⟩ :=
  ⟨(conversation_selection_ignores_subject "bp").1 envW initState reqUdef1 reqUdef2
      "alice" "bob" rfl rfl rfl rfl rfl rfl,
   (conversation_selection_ignores_subject "bp").2 ⟨envW, reqUdef1⟩ ⟨envWempty, reqUdef3⟩
      (by decide) (by decide) rfl rfl⟩

end CS15Tutor
